import Mathlib

/-!
Shallow embedding of `src/sftp.rs` (the SFTP client layer of ssh2-rs).

Conventions of the embedding:
* machine integers are `Nat` (unsigned) or `Int` (signed); a Rust cast that
  can truncate is written as an explicit `% 2 ^ w`; a widening cast is the
  identity.  `c_ulong` and `size_t` are modelled as 64-bit (unix LP64
  target, matching the `cfg(unix)` code path of the source).
* calls into libssh2 are modelled by oracle parameters: a function giving
  the status code the peer returns for a given request.
* the session collaborator (`SessionInner`, `Error`) lives outside
  `src/`; where its behaviour matters it is modelled from the spec's
  collaborator contract and marked as such.
-/

/-! Constants re-exported by the `raw` (libssh2-sys) crate, from the
libssh2 C headers. -/

def LIBSSH2_ERROR_FILE : Int := -16

def LIBSSH2_ERROR_BUFFER_TOO_SMALL : Int := -38

def LIBSSH2_ERROR_BAD_USE : Int := -39

def LIBSSH2_FXF_READ : Nat := 0x01

def LIBSSH2_FXF_WRITE : Nat := 0x02

def LIBSSH2_FXF_APPEND : Nat := 0x04

def LIBSSH2_FXF_CREAT : Nat := 0x08

def LIBSSH2_FXF_TRUNC : Nat := 0x10

def LIBSSH2_FXF_EXCL : Nat := 0x20

def LIBSSH2_SFTP_ATTR_SIZE : Nat := 0x01

def LIBSSH2_SFTP_ATTR_UIDGID : Nat := 0x02

def LIBSSH2_SFTP_ATTR_PERMISSIONS : Nat := 0x04

def LIBSSH2_SFTP_ATTR_ACMODTIME : Nat := 0x08

def LIBSSH2_SFTP_RENAME_OVERWRITE : Nat := 0x01

def LIBSSH2_SFTP_RENAME_ATOMIC : Nat := 0x02

def LIBSSH2_SFTP_RENAME_NATIVE : Nat := 0x04

/-! `OpenFlags` bit sets, as declared by the `bitflags!` block at
src/sftp.rs:75-97.  `TRUNCATE` and `EXCLUSIVE` are declared as the raw
flag or-ed with `Self::CREATE.bits`. -/

def OpenFlags.READ : Nat := LIBSSH2_FXF_READ

def OpenFlags.WRITE : Nat := LIBSSH2_FXF_WRITE

def OpenFlags.APPEND : Nat := LIBSSH2_FXF_APPEND

def OpenFlags.CREATE : Nat := LIBSSH2_FXF_CREAT

def OpenFlags.TRUNCATE : Nat := LIBSSH2_FXF_TRUNC ||| OpenFlags.CREATE

def OpenFlags.EXCLUSIVE : Nat := LIBSSH2_FXF_EXCL ||| OpenFlags.CREATE

/-! FileStat and the attribute codec (src/sftp.rs:55-68, 658-701). -/

/-- `FileStat` (src/sftp.rs:55-68): six optional metadata fields.
`size`, `atime`, `mtime` are `u64`; `uid`, `gid`, `perm` are `u32`. -/
structure FileStat where
  size : Option Nat
  uid : Option Nat
  gid : Option Nat
  perm : Option Nat
  atime : Option Nat
  mtime : Option Nat
deriving DecidableEq, Repr

/-- The wire attribute record `LIBSSH2_SFTP_ATTRIBUTES`: `flags` and the
narrow fields are `c_ulong` (64-bit here), `filesize` is `u64`. -/
structure LIBSSH2_SFTP_ATTRIBUTES where
  flags : Nat
  filesize : Nat
  uid : Nat
  gid : Nat
  permissions : Nat
  atime : Nat
  mtime : Nat
deriving DecidableEq, Repr

/-- Inner helper `val` of `FileStat::from_raw` (src/sftp.rs:659-665):
surface the stored value only when the flag bit is set. -/
def val (flags : Nat) (t : Nat) (flag : Nat) : Option Nat :=
  if flags &&& flag ≠ 0 then some t else none

/-- `FileStat::from_raw` (src/sftp.rs:658-675).  The `as u32` casts on
uid/gid/perm truncate `c_ulong` to `u32` (`% 2 ^ 32`); the `as u64`
casts on atime/mtime are the identity on this target. -/
def FileStat.from_raw (r : LIBSSH2_SFTP_ATTRIBUTES) : FileStat :=
  { size := val r.flags r.filesize LIBSSH2_SFTP_ATTR_SIZE
    uid := (val r.flags r.uid LIBSSH2_SFTP_ATTR_UIDGID).map (fun s => s % 2 ^ 32)
    gid := (val r.flags r.gid LIBSSH2_SFTP_ATTR_UIDGID).map (fun s => s % 2 ^ 32)
    perm := (val r.flags r.permissions LIBSSH2_SFTP_ATTR_PERMISSIONS).map (fun s => s % 2 ^ 32)
    mtime := val r.flags r.mtime LIBSSH2_SFTP_ATTR_ACMODTIME
    atime := val r.flags r.atime LIBSSH2_SFTP_ATTR_ACMODTIME }

/-- Inner helper `flag` of `FileStat::raw` (src/sftp.rs:679-685). -/
def flagIf (o : Option Nat) (flag : Nat) : Nat :=
  if o.isSome then flag else 0

/-- `FileStat::raw` (src/sftp.rs:678-701).  The `as c_ulong` casts widen
`u32` values and are the identity on the `u64` time fields. -/
def FileStat.raw (v : FileStat) : LIBSSH2_SFTP_ATTRIBUTES :=
  { flags := flagIf v.size LIBSSH2_SFTP_ATTR_SIZE
      ||| flagIf v.uid LIBSSH2_SFTP_ATTR_UIDGID
      ||| flagIf v.gid LIBSSH2_SFTP_ATTR_UIDGID
      ||| flagIf v.perm LIBSSH2_SFTP_ATTR_PERMISSIONS
      ||| flagIf v.atime LIBSSH2_SFTP_ATTR_ACMODTIME
      ||| flagIf v.mtime LIBSSH2_SFTP_ATTR_ACMODTIME
    filesize := v.size.getD 0
    uid := v.uid.getD 0
    gid := v.gid.getD 0
    permissions := v.perm.getD 0
    atime := v.atime.getD 0
    mtime := v.mtime.getD 0 }

/-- Range invariant carried by the Rust types of the `FileStat` fields:
`uid`, `gid` and `perm` are `u32` values. -/
def FileStat.WF (v : FileStat) : Prop :=
  v.uid.getD 0 < 2 ^ 32 ∧ v.gid.getD 0 < 2 ^ 32 ∧ v.perm.getD 0 < 2 ^ 32

instance (v : FileStat) : Decidable v.WF := by
  unfold FileStat.WF
  infer_instance

/-- C9: compound open flags contain their implied primitive: the bit set
of TRUNCATE is a superset of the bit set of CREATE, and likewise for
EXCLUSIVE (truncate implies create; exclusive implies create). -/
theorem openflags_compound_superset :
    OpenFlags.TRUNCATE &&& OpenFlags.CREATE = OpenFlags.CREATE ∧
      OpenFlags.EXCLUSIVE &&& OpenFlags.CREATE = OpenFlags.CREATE := by
  decide

/-- C2 as stated fails: encoding a FileStat with `uid` present and `gid`
absent and decoding it back resurrects `gid` as `some 0`, because the two
fields share the single UIDGID flag bit. -/
theorem filestat_roundtrip_counterexample :
    FileStat.from_raw (FileStat.raw ⟨none, some 1, none, none, none, none⟩) ≠
      ⟨none, some 1, none, none, none, none⟩ := by
  decide

/-- C2 (amended): decode after encode is the identity on every well-formed
FileStat whose paired fields agree in presence: uid present iff gid
present, and atime present iff mtime present.  Absent fields stay absent
and present fields keep their values. -/
theorem filestat_roundtrip_paired (v : FileStat) (hwf : v.WF)
    (hug : v.uid.isSome = v.gid.isSome) (ham : v.atime.isSome = v.mtime.isSome) :
    FileStat.from_raw (FileStat.raw v) = v := by
  obtain ⟨hu, hg, hp⟩ := hwf
  obtain ⟨size, uid, gid, perm, atime, mtime⟩ := v
  rcases size with _ | s <;> rcases uid with _ | u <;> rcases gid with _ | g <;>
    rcases perm with _ | p <;> rcases atime with _ | a <;> rcases mtime with _ | m <;>
    simp_all +decide [FileStat.from_raw, FileStat.raw, val, flagIf,
      LIBSSH2_SFTP_ATTR_SIZE, LIBSSH2_SFTP_ATTR_UIDGID,
      LIBSSH2_SFTP_ATTR_PERMISSIONS, LIBSSH2_SFTP_ATTR_ACMODTIME]

/-- Closed instance of the amended round-trip at a FileStat with all six
fields present. -/
theorem filestat_roundtrip_paired_witness :
    FileStat.WF ⟨some 5, some 1, some 2, some 3, some 4, some 6⟩ ∧
      FileStat.from_raw (FileStat.raw ⟨some 5, some 1, some 2, some 3, some 4, some 6⟩) =
        ⟨some 5, some 1, some 2, some 3, some 4, some 6⟩ :=
  ⟨by decide, filestat_roundtrip_paired ⟨some 5, some 1, some 2, some 3, some 4, some 6⟩
    (by decide) rfl rfl⟩

/-- C6: the owner pair and the time pair each share one wire flag bit.
Encoding uid-without-gid sets the UIDGID flag and stores gid as zero, and
decoding that record yields both uid and gid present with gid = 0; the
same holds with the roles of uid and gid swapped, and for the
atime/mtime pair under the ACMODTIME flag. -/
theorem filestat_flag_pairing (u t : Nat) (hu : u < 2 ^ 32) :
    ((FileStat.raw ⟨none, some u, none, none, none, none⟩).flags &&&
        LIBSSH2_SFTP_ATTR_UIDGID ≠ 0 ∧
      (FileStat.raw ⟨none, some u, none, none, none, none⟩).gid = 0 ∧
      FileStat.from_raw (FileStat.raw ⟨none, some u, none, none, none, none⟩) =
        ⟨none, some u, some 0, none, none, none⟩) ∧
    ((FileStat.raw ⟨none, none, some u, none, none, none⟩).flags &&&
        LIBSSH2_SFTP_ATTR_UIDGID ≠ 0 ∧
      (FileStat.raw ⟨none, none, some u, none, none, none⟩).uid = 0 ∧
      FileStat.from_raw (FileStat.raw ⟨none, none, some u, none, none, none⟩) =
        ⟨none, some 0, some u, none, none, none⟩) ∧
    ((FileStat.raw ⟨none, none, none, none, some t, none⟩).flags &&&
        LIBSSH2_SFTP_ATTR_ACMODTIME ≠ 0 ∧
      (FileStat.raw ⟨none, none, none, none, some t, none⟩).mtime = 0 ∧
      FileStat.from_raw (FileStat.raw ⟨none, none, none, none, some t, none⟩) =
        ⟨none, none, none, none, some t, some 0⟩) ∧
    ((FileStat.raw ⟨none, none, none, none, none, some t⟩).flags &&&
        LIBSSH2_SFTP_ATTR_ACMODTIME ≠ 0 ∧
      (FileStat.raw ⟨none, none, none, none, none, some t⟩).atime = 0 ∧
      FileStat.from_raw (FileStat.raw ⟨none, none, none, none, none, some t⟩) =
        ⟨none, none, none, none, some 0, some t⟩) := by
  refine ⟨⟨?_, ?_, ?_⟩, ⟨?_, ?_, ?_⟩, ⟨?_, ?_, ?_⟩, ⟨?_, ?_, ?_⟩⟩ <;>
    simp +decide [FileStat.from_raw, FileStat.raw, val, flagIf,
      LIBSSH2_SFTP_ATTR_SIZE, LIBSSH2_SFTP_ATTR_UIDGID,
      LIBSSH2_SFTP_ATTR_PERMISSIONS, LIBSSH2_SFTP_ATTR_ACMODTIME] <;>
    first
    | decide
    | omega

/-- Closed instance of the flag-pairing theorem at uid = 7, atime = 9. -/
theorem filestat_flag_pairing_witness :
    (7 : Nat) < 2 ^ 32 ∧
      FileStat.from_raw (FileStat.raw ⟨none, some 7, none, none, none, none⟩) =
        ⟨none, some 7, some 0, none, none, none⟩ :=
  ⟨by decide, (filestat_flag_pairing 7 9 (by decide)).1.2.2⟩

/-! Growth-retry loop (src/sftp.rs:319-348 `Sftp::readlink_op` and
src/sftp.rs:490-524 `File::readdir`).  The request into the
caller-invisible buffer is modelled by an oracle `resp` mapping the
buffer capacity passed to libssh2 to the returned status code. -/

/-- Semantics of `Vec::reserve(additional)` on a vector with length `len`
and capacity `cap`: it does nothing when the spare capacity already
covers `additional`, and otherwise grows amortized to at least the
required capacity. -/
def vecReserve (len cap additional : Nat) : Nat :=
  if additional ≤ cap - len then cap else max (2 * cap) (len + additional)

/-- The retry loop shared by `readlink_op` and `File::readdir`: issue the
request at the current capacity; on `LIBSSH2_ERROR_BUFFER_TOO_SMALL` run
the source's `let cap = buf.capacity(); buf.reserve(cap);` (the vector's
length is 0 throughout the loop) and retry; on any other status stop,
yielding the final status and capacity.  `fuel` bounds the number of
iterations we are willing to unfold; `none` means the loop is still
running after `fuel` requests. -/
def growthLoop (resp : Nat → Int) : Nat → Nat → Option (Int × Nat)
  | 0, _ => none
  | fuel + 1, cap =>
    let rc := resp cap
    if rc = LIBSSH2_ERROR_BUFFER_TOO_SMALL then
      growthLoop resp fuel (vecReserve 0 cap cap)
    else
      some (rc, cap)

/-- `Sftp::readlink_op` (src/sftp.rs:319-348), result layer: buffer starts
at `Vec::with_capacity(128)`; a negative final status is an error, a
non-negative one is the payload length (`ret.set_len(rc as usize)`). -/
def Sftp.readlink_op (resp : Nat → Int) (fuel : Nat) : Option (Except Int Nat) :=
  match growthLoop resp fuel 128 with
  | none => none
  | some (rc, _) => if rc < 0 then some (Except.error rc) else some (Except.ok rc.toNat)

/-- `File::readdir` (src/sftp.rs:490-524), result layer: same loop from
capacity 128; a negative final status is an error, zero becomes the
`LIBSSH2_ERROR_FILE` "no more files" sentinel, a positive one is the
entry's name length. -/
def File.readdir_raw (resp : Nat → Int) (fuel : Nat) : Option (Except Int Nat) :=
  match growthLoop resp fuel 128 with
  | none => none
  | some (rc, _) =>
    if rc < 0 then some (Except.error rc)
    else if rc = 0 then some (Except.error LIBSSH2_ERROR_FILE)
    else some (Except.ok rc.toNat)

/-- A peer response that needs three capacity doublings: buffer too small
below capacity 1024, payload of length 11 from 1024 up. -/
def resp3 : Nat → Int :=
  fun cap => if cap < 1024 then LIBSSH2_ERROR_BUFFER_TOO_SMALL else 11

theorem vecReserve_noop (cap : Nat) : vecReserve 0 cap cap = cap := by
  simp [vecReserve]

theorem growthLoop_resp3_stuck (fuel : Nat) : growthLoop resp3 fuel 128 = none := by
  induction fuel with
  | zero => rfl
  | succ n ih => simpa [growthLoop, resp3, vecReserve] using ih

/-- C1 fails on the code: `buf.reserve(cap)` with length 0 never grows
the buffer, so against a peer that reports buffer-too-small at capacity
128 (and would succeed at 1024, i.e. after the three doublings of the
claim) both `readlink_op` (hence readlink/realpath) and the single-entry
`File::readdir` re-issue the request at capacity 128 forever instead of
retrying three times and returning the payload. -/
theorem growth_retry_never_grows (fuel : Nat) :
    Sftp.readlink_op resp3 fuel = none ∧ File.readdir_raw resp3 fuel = none := by
  constructor <;>
    simp [Sftp.readlink_op, File.readdir_raw, growthLoop_resp3_stuck fuel]

/-! Handle lifecycle (src/sftp.rs:20-22, 46-48, 389-427, 537-558,
626-637).  The optional-ownership slot `inner` of `Sftp` and `File` is
modelled as an `Option Unit`; protocol status codes come from an oracle
argument.  The status translation of the session collaborator lives
outside src/ and is modelled from the spec. -/

/-- `Sftp` / `File` handle slot: `inner: Option<...>` is occupied while
the handle is live and emptied by teardown. -/
structure HandleState where
  inner : Option Unit
deriving DecidableEq, Repr

deriving instance DecidableEq for Except

/-- Result of a teardown call: the value returned to the caller, the
handle state afterwards, and whether a protocol request went out on the
wire. -/
structure TeardownResult where
  result : Except Int Unit
  state : HandleState
  requestIssued : Bool
deriving DecidableEq, Repr

/-- Modelled from the spec: the session collaborator's
`execute_and_translate(status_code)` (`SessionInner::rc` / `Error::rc`,
defined outside src/) maps a zero/positive status to success and a
negative status to an error carrying that code. -/
def sessRc (rc : Int) : Except Int Unit :=
  if rc < 0 then Except.error rc else Except.ok ()

/-- `Sftp::shutdown` (src/sftp.rs:404-413): `self.lock()?` fails with
`LIBSSH2_ERROR_BAD_USE` and no request when the slot is empty; otherwise
`libssh2_sftp_shutdown` is issued (status `rc`), its translation is
propagated with `?`, and only after a successful translation is
`self.inner.take()` reached. -/
def Sftp.shutdown (rc : Int) (s : HandleState) : TeardownResult :=
  match s.inner with
  | none => ⟨Except.error LIBSSH2_ERROR_BAD_USE, s, false⟩
  | some _ =>
    match sessRc rc with
    | Except.error e => ⟨Except.error e, s, true⟩
    | Except.ok _ => ⟨Except.ok (), ⟨none⟩, true⟩

/-- `File::close` (src/sftp.rs:551-558): same shape as `Sftp::shutdown`
around `libssh2_sftp_close_handle`. -/
def File.close (rc : Int) (s : HandleState) : TeardownResult :=
  match s.inner with
  | none => ⟨Except.error LIBSSH2_ERROR_BAD_USE, s, false⟩
  | some _ =>
    match sessRc rc with
    | Except.error e => ⟨Except.error e, s, true⟩
    | Except.ok _ => ⟨Except.ok (), ⟨none⟩, true⟩

/-- C3 fails on the code: when the close request itself returns an error
(here the protocol error -31), `File::close` propagates the error with
`?` before reaching `self.inner.take()`, so the handle slot is NOT
cleared; `Sftp::shutdown` behaves the same way. -/
theorem close_error_keeps_slot_counterexample :
    (File.close (-31) ⟨some ()⟩).state ≠ (⟨none⟩ : HandleState) ∧
      (Sftp.shutdown (-31) ⟨some ()⟩).state ≠ (⟨none⟩ : HandleState) := by
  decide

/-- C3 (amended): `Sftp::shutdown` and `File::close` clear the internal
handle slot exactly when the request's status translates to success; on
an error status the error propagates and the slot stays occupied.  After
a successful teardown every subsequent operation (modelled by the
teardown entry points themselves, which all go through the same
`lock()` check) fails with the invalid-use error without issuing a
protocol request; in particular a second `close` after a successful one
returns invalid-use and sends nothing. -/
theorem teardown_clears_slot_on_success (rc : Int) (hrc : 0 ≤ rc) (erc : Int)
    (herc : erc < 0) :
    Sftp.shutdown rc ⟨some ()⟩ = ⟨Except.ok (), ⟨none⟩, true⟩ ∧
      File.close rc ⟨some ()⟩ = ⟨Except.ok (), ⟨none⟩, true⟩ ∧
      Sftp.shutdown erc ⟨some ()⟩ = ⟨Except.error erc, ⟨some ()⟩, true⟩ ∧
      File.close erc ⟨some ()⟩ = ⟨Except.error erc, ⟨some ()⟩, true⟩ ∧
      File.close rc (File.close rc ⟨some ()⟩).state =
        ⟨Except.error LIBSSH2_ERROR_BAD_USE, ⟨none⟩, false⟩ ∧
      Sftp.shutdown rc (Sftp.shutdown rc ⟨some ()⟩).state =
        ⟨Except.error LIBSSH2_ERROR_BAD_USE, ⟨none⟩, false⟩ := by
  have h1 : sessRc rc = Except.ok () := by simp [sessRc]; omega
  have h2 : sessRc erc = Except.error erc := by simp [sessRc, herc]
  refine ⟨?_, ?_, ?_, ?_, ?_, ?_⟩ <;>
    simp [Sftp.shutdown, File.close, h1, h2]

/-- Closed instance of the amended teardown behaviour at status 0 for
success and -31 for failure. -/
theorem teardown_clears_slot_on_success_witness :
    (0 : Int) ≤ 0 ∧ (-31 : Int) < 0 ∧
      File.close 0 (File.close 0 ⟨some ()⟩).state =
        ⟨Except.error LIBSSH2_ERROR_BAD_USE, ⟨none⟩, false⟩ :=
  ⟨by decide, by decide,
    (teardown_clears_slot_on_success 0 (by decide) (-31) (by decide)).2.2.2.2.1⟩

/-! Drop teardown (src/sftp.rs:416-427 and 626-637).  The session's
blocking mode and the calls made on the collaborator are recorded in a
trace; modelled from the spec's collaborator contract for
`is_blocking`/`set_blocking` (`SessionInner`, outside src/). -/

/-- One observable interaction with the session collaborator during
teardown. -/
inductive SessEvent
  | setBlocking (b : Bool)
  | sendShutdown
  | sendClose
deriving DecidableEq, Repr

/-- Modelled from the spec: fake session collaborator state: its current
transport blocking mode, plus a trace recording mode transitions and
requests. -/
structure Sess where
  blocking : Bool
  trace : List SessEvent
deriving DecidableEq, Repr

/-- `impl Drop for Sftp` (src/sftp.rs:416-427): if the slot is still
occupied, read `is_blocking`, `set_blocking(true)`, issue
`libssh2_sftp_shutdown` (status `rc`), `assert_eq!(rc, 0)` (panic, i.e.
`none`, on any other status), then `set_blocking(was)`.  An empty slot
does nothing. -/
def Sftp.drop (rc : Int) (s : HandleState) (sess : Sess) : Option Sess :=
  match s.inner with
  | none => some sess
  | some _ =>
    let was := sess.blocking
    let sess1 : Sess := ⟨true, sess.trace ++ [SessEvent.setBlocking true]⟩
    let sess2 : Sess := ⟨sess1.blocking, sess1.trace ++ [SessEvent.sendShutdown]⟩
    if rc = 0 then some ⟨was, sess2.trace ++ [SessEvent.setBlocking was]⟩ else none

/-- `impl Drop for File` (src/sftp.rs:626-637): identical shape around
`libssh2_sftp_close_handle`. -/
def File.drop (rc : Int) (s : HandleState) (sess : Sess) : Option Sess :=
  match s.inner with
  | none => some sess
  | some _ =>
    let was := sess.blocking
    let sess1 : Sess := ⟨true, sess.trace ++ [SessEvent.setBlocking true]⟩
    let sess2 : Sess := ⟨sess1.blocking, sess1.trace ++ [SessEvent.sendClose]⟩
    if rc = 0 then some ⟨was, sess2.trace ++ [SessEvent.setBlocking was]⟩ else none

/-- C4: dropping an `Sftp` or `File` whose slot is still occupied forces
the session to blocking, issues the shutdown/close request synchronously,
requires it to succeed (asserting — modelled `none` — on any non-zero
status), and restores the prior blocking mode: on every successful exit
path the blocking mode after the drop equals the mode before it, and the
recorded transitions are set-blocking-true, request, set-blocking-prior. -/
theorem drop_restores_blocking_mode (sess : Sess) (rc : Int) (hrc : rc = 0)
    (erc : Int) (herc : erc ≠ 0) :
    Sftp.drop rc ⟨some ()⟩ sess =
        some ⟨sess.blocking, sess.trace ++
          [SessEvent.setBlocking true, SessEvent.sendShutdown,
            SessEvent.setBlocking sess.blocking]⟩ ∧
      File.drop rc ⟨some ()⟩ sess =
        some ⟨sess.blocking, sess.trace ++
          [SessEvent.setBlocking true, SessEvent.sendClose,
            SessEvent.setBlocking sess.blocking]⟩ ∧
      Sftp.drop erc ⟨some ()⟩ sess = none ∧
      File.drop erc ⟨some ()⟩ sess = none := by
  subst hrc
  refine ⟨?_, ?_, ?_, ?_⟩ <;> simp [Sftp.drop, File.drop, herc]

/-- Closed instance of the drop teardown at a non-blocking session with
an empty trace, a successful request (0) and a failing one (-7). -/
theorem drop_restores_blocking_mode_witness :
    (0 : Int) = 0 ∧ (-7 : Int) ≠ 0 ∧
      Sftp.drop 0 ⟨some ()⟩ ⟨false, []⟩ =
        some ⟨false, [SessEvent.setBlocking true, SessEvent.sendShutdown,
          SessEvent.setBlocking false]⟩ :=
  ⟨rfl, by decide,
    by simpa using (drop_restores_blocking_mode ⟨false, []⟩ 0 rfl (-7) (by decide)).1⟩

/-! Aggregate directory listing (src/sftp.rs:194-211 `Sftp::readdir`,
looping over the single-entry `File::readdir`).  The already-opened
directory is modelled as the sequence of (name, stat) entries its
single-entry reads yield, followed by a terminal status: 0 for the
normal end of the listing (which `File::readdir` turns into the
`LIBSSH2_ERROR_FILE` "no more files" sentinel) or a negative protocol
status. -/

/-- `Path::join` of the queried directory path and an entry name
(entry names returned by readdir are relative file names). -/
def pathJoin (dirname name : String) : String :=
  dirname ++ "/" ++ name

/-- `Sftp::readdir` (src/sftp.rs:194-211): pull entries one at a time;
skip the pseudo-entries "." and ".."; join every other name onto
`dirname`; stop successfully when the single-entry read fails with code
`LIBSSH2_ERROR_FILE` (which rc = 0 from the wire is mapped to by
src/sftp.rs:516-517) and propagate any other error. -/
def Sftp.readdir (dirname : String) :
    List (String × FileStat) → Int → Except Int (List (String × FileStat))
  | [], rcEnd =>
    let code := if rcEnd = 0 then LIBSSH2_ERROR_FILE else rcEnd
    if code = LIBSSH2_ERROR_FILE then Except.ok [] else Except.error code
  | (name, st) :: rest, rcEnd =>
    if name = "." ∨ name = ".." then Sftp.readdir dirname rest rcEnd
    else
      match Sftp.readdir dirname rest rcEnd with
      | Except.ok l => Except.ok ((pathJoin dirname name, st) :: l)
      | Except.error e => Except.error e

/-- Closed form of the aggregate listing loop for every terminal
status. -/
theorem readdir_run (dirname : String) (entries : List (String × FileStat))
    (rcEnd : Int) :
    Sftp.readdir dirname entries rcEnd =
      if rcEnd = 0 ∨ rcEnd = LIBSSH2_ERROR_FILE then
        Except.ok
          ((entries.filter (fun p => !(p.1 = "." || p.1 = ".."))).map
            (fun p => (pathJoin dirname p.1, p.2)))
      else Except.error rcEnd := by
  induction entries with
  | nil =>
    by_cases h0 : rcEnd = 0
    · simp [Sftp.readdir, h0]
    · by_cases hf : rcEnd = LIBSSH2_ERROR_FILE
      · simp [Sftp.readdir, h0, hf]
      · simp [Sftp.readdir, h0, hf]
  | cons hd tl ih =>
    obtain ⟨name, st⟩ := hd
    by_cases hcond : rcEnd = 0 ∨ rcEnd = LIBSSH2_ERROR_FILE
    · simp only [Sftp.readdir, ih, if_pos hcond]
      by_cases hname : name = "." ∨ name = ".."
      · rcases hname with h | h <;> simp [h]
      · push_neg at hname
        simp [hname.1, hname.2]
    · simp only [Sftp.readdir, ih, if_neg hcond]
      by_cases hname : name = "." ∨ name = ".."
      · simp [hname]
      · push_neg at hname
        simp [hname.1, hname.2]

/-- C5: for a directory whose single-entry reads yield `entries` and then
the end-of-listing sentinel, the aggregate listing returns exactly the
entries other than "." and "..", in order, each joined under `dirname`;
the sentinel never propagates as an error (whether it arises from the
rc = 0 mapping or arrives as a literal `LIBSSH2_ERROR_FILE` status), and
any other terminal error status propagates unchanged. -/
theorem readdir_filters_joins_and_stops (dirname : String)
    (entries : List (String × FileStat)) (rcEnd : Int)
    (hrc : rcEnd < 0) (hfile : rcEnd ≠ LIBSSH2_ERROR_FILE) :
    Sftp.readdir dirname entries 0 =
        Except.ok
          ((entries.filter (fun p => !(p.1 = "." || p.1 = ".."))).map
            (fun p => (pathJoin dirname p.1, p.2))) ∧
      Sftp.readdir dirname entries LIBSSH2_ERROR_FILE =
        Except.ok
          ((entries.filter (fun p => !(p.1 = "." || p.1 = ".."))).map
            (fun p => (pathJoin dirname p.1, p.2))) ∧
      Sftp.readdir dirname entries rcEnd = Except.error rcEnd := by
  have h0 : rcEnd ≠ 0 := by omega
  refine ⟨?_, ?_, ?_⟩ <;> rw [readdir_run] <;> simp [hfile, h0]

/-- Closed instance of the aggregate-listing theorem on the spec's
example directory containing ".", "..", "a.txt", "b". -/
theorem readdir_filters_joins_and_stops_witness :
    (-31 : Int) < 0 ∧ (-31 : Int) ≠ LIBSSH2_ERROR_FILE ∧
      Sftp.readdir "dir"
          [(".", ⟨none, none, none, none, none, none⟩),
            ("..", ⟨none, none, none, none, none, none⟩),
            ("a.txt", ⟨some 3, none, none, none, none, none⟩),
            ("b", ⟨none, none, none, some 1, none, none⟩)] 0 =
        Except.ok
          [("dir/a.txt", ⟨some 3, none, none, none, none, none⟩),
            ("dir/b", ⟨none, none, none, some 1, none, none⟩)] :=
  ⟨by decide, by decide,
    by simpa using
      (readdir_filters_joins_and_stops "dir"
        [(".", ⟨none, none, none, none, none, none⟩),
          ("..", ⟨none, none, none, none, none, none⟩),
          ("a.txt", ⟨some 3, none, none, none, none, none⟩),
          ("b", ⟨none, none, none, some 1, none, none⟩)] (-31) (by decide)
        (by decide)).1⟩

/-! Seek (src/sftp.rs:593-624, `impl Seek for File`).  The handle's
current position (`libssh2_sftp_tell64`) and the per-handle stat
response are oracle inputs; the outcome records the position passed to
`libssh2_sftp_seek64` and returned (on success) and whether a stat
request went on the wire. -/

/-- The three addressing modes of `std::io::SeekFrom`. -/
inductive SeekFrom
  | start (pos : Nat)
  | current (offset : Int)
  | fromEnd (offset : Int)
deriving DecidableEq, Repr

/-- Error cases of `File::seek`: the descriptive local error for a stat
response without a size, or the propagated stat failure. -/
inductive SeekErr
  | noSize (msg : String)
  | statFailed (code : Int)
deriving DecidableEq, Repr

/-- Reinterpret a `u64` value as an `i64` (Rust `as i64`: two's
complement, wrapping). -/
def i64ofU64 (n : Nat) : Int :=
  if n % 2 ^ 64 < 2 ^ 63 then ((n % 2 ^ 64 : Nat) : Int)
  else ((n % 2 ^ 64 : Nat) : Int) - 2 ^ 64

/-- Reinterpret an `i64` value as a `u64` (Rust `as u64`: two's
complement, wrapping). -/
def u64ofI64 (i : Int) : Nat :=
  (i % (2 ^ 64 : Int)).toNat

/-- Outcome of a seek: the `Ok` position applied via
`libssh2_sftp_seek64` and returned, or the error; plus whether a stat
round trip was issued. -/
structure SeekOutcome where
  result : Except SeekErr Nat
  statIssued : Bool
deriving DecidableEq, Repr

/-- `<File as Seek>::seek` (src/sftp.rs:604-623): `Start` uses the given
position; `Current` computes `(tell64() as i64 + offset) as u64` with no
stat request; `End` issues a per-handle stat and computes
`(size as i64 + offset) as u64`, failing with "no file size available"
when the response has no size field and propagating a failed stat. -/
def File.seek (tell : Nat) (statRes : Except Int FileStat) :
    SeekFrom → SeekOutcome
  | SeekFrom.start pos => ⟨Except.ok pos, false⟩
  | SeekFrom.current offset =>
    ⟨Except.ok (u64ofI64 (i64ofU64 tell + offset)), false⟩
  | SeekFrom.fromEnd offset =>
    match statRes with
    | Except.ok s =>
      match s.size with
      | some size => ⟨Except.ok (u64ofI64 (i64ofU64 size + offset)), true⟩
      | none => ⟨Except.error (SeekErr.noSize "no file size available"), true⟩
    | Except.error e => ⟨Except.error (SeekErr.statFailed e), true⟩

/-- C7: a from-end seek whose stat succeeds without a size field fails
with the descriptive "no file size available" error and applies no
offset; from-end is the only mode that can fail (absolute and
from-current seeks always succeed), and neither the absolute nor the
from-current mode issues a stat request. -/
theorem seek_from_end_no_size (tell : Nat) (statRes : Except Int FileStat)
    (s : FileStat) (off : Int) (hok : statRes = Except.ok s)
    (hsz : s.size = none) :
    File.seek tell statRes (SeekFrom.fromEnd off) =
        ⟨Except.error (SeekErr.noSize "no file size available"), true⟩ ∧
      ∀ (tl : Nat) (sr : Except Int FileStat) (pos : Nat) (o : Int),
        File.seek tl sr (SeekFrom.start pos) = ⟨Except.ok pos, false⟩ ∧
          (File.seek tl sr (SeekFrom.current o)).statIssued = false ∧
          (File.seek tl sr (SeekFrom.current o)).result =
            Except.ok (u64ofI64 (i64ofU64 tl + o)) := by
  subst hok
  refine ⟨by simp [File.seek, hsz], fun tl sr pos o => ⟨rfl, rfl, rfl⟩⟩

/-- Closed instance of the from-end failure at a stat with no size. -/
theorem seek_from_end_no_size_witness :
    (Except.ok (⟨none, none, none, none, none, none⟩ : FileStat) :
        Except Int FileStat) =
        Except.ok ⟨none, none, none, none, none, none⟩ ∧
      File.seek 10 (Except.ok ⟨none, none, none, none, none, none⟩)
          (SeekFrom.fromEnd (-4)) =
        ⟨Except.error (SeekErr.noSize "no file size available"), true⟩ :=
  ⟨rfl,
    (seek_from_end_no_size 10 (Except.ok ⟨none, none, none, none, none, none⟩)
      ⟨none, none, none, none, none, none⟩ (-4) rfl rfl).1⟩

/-- C10: from-current and from-end seeks compute the target as the
wrapping two's-complement u64 cast of the signed sum (position or size
as i64, plus offset); in particular a negative signed sum wraps to
2 ^ 64 + sum and is applied and returned as a success, not an error. -/
theorem seek_wraps_negative_sum (tell size : Nat) (off : Int)
    (statRes : Except Int FileStat) (perm : Option Nat)
    (hneg : i64ofU64 tell + off < 0) (hlo : -2 ^ 63 ≤ i64ofU64 tell + off)
    (hneg2 : i64ofU64 size + off < 0) (hlo2 : -2 ^ 63 ≤ i64ofU64 size + off) :
    File.seek tell statRes (SeekFrom.current off) =
        ⟨Except.ok ((2 ^ 64 + (i64ofU64 tell + off)).toNat), false⟩ ∧
      File.seek tell (Except.ok ⟨some size, none, none, perm, none, none⟩)
          (SeekFrom.fromEnd off) =
        ⟨Except.ok ((2 ^ 64 + (i64ofU64 size + off)).toNat), true⟩ := by
  have key : ∀ i : Int, i < 0 → -2 ^ 63 ≤ i → u64ofI64 i = (2 ^ 64 + i).toNat := by
    intro i hi hlo3
    unfold u64ofI64
    omega
  exact ⟨by simp [File.seek, key _ hneg hlo],
    by simp [File.seek, key _ hneg2 hlo2]⟩

/-- Closed instance of the wrap-around seek: position 5, offset -9 wraps
to 2 ^ 64 - 4. -/
theorem seek_wraps_negative_sum_witness :
    i64ofU64 5 + (-9) < 0 ∧
      File.seek 5 (Except.error (-31)) (SeekFrom.current (-9)) =
        ⟨Except.ok (2 ^ 64 - 4), false⟩ := by
  have h := seek_wraps_negative_sum 5 7 (-9) (Except.error (-31)) none
    (by decide) (by decide) (by decide) (by decide)
  exact ⟨by decide, by rw [h.1]; rfl⟩

/-! Rename (src/sftp.rs:362-378).  Paths are modelled as their wire byte
strings (the `util::path2bytes` encoding); the single request carries
src, dst and the resolved flag bits, and the peer's status for a request
is an oracle. -/

/-- The one wire request `libssh2_sftp_rename_ex` issues. -/
structure RenameReq where
  src : List Nat
  dst : List Nat
  flags : Nat
deriving DecidableEq, Repr

/-- `Sftp::rename` (src/sftp.rs:362-378): a missing `flags` argument
defaults to `ATOMIC | OVERWRITE | NATIVE`; one request is issued and its
status translated. -/
def Sftp.rename (src dst : List Nat) (flags : Option Nat)
    (resp : RenameReq → Int) : RenameReq × Except Int Unit :=
  let f := flags.getD
    (LIBSSH2_SFTP_RENAME_ATOMIC ||| LIBSSH2_SFTP_RENAME_OVERWRITE |||
      LIBSSH2_SFTP_RENAME_NATIVE)
  let req : RenameReq := ⟨src, dst, f⟩
  (req, sessRc (resp req))

/-- C8: renaming with no flags is identical to renaming with the
explicit union of the atomic, overwrite and native flags: the same
request (same src, dst and flag bits) is issued and the same result
returned, for every src, dst and peer behaviour. -/
theorem rename_default_flags (src dst : List Nat) (resp : RenameReq → Int) :
    Sftp.rename src dst none resp =
      Sftp.rename src dst
        (some (LIBSSH2_SFTP_RENAME_ATOMIC ||| LIBSSH2_SFTP_RENAME_OVERWRITE |||
          LIBSSH2_SFTP_RENAME_NATIVE)) resp :=
  rfl
